import Mathlib

/-!
Shallow embedding of `src/include/SQLITE3.hpp` (class `SQLITE3`, the
execution engine of SQLitePlus) and of the QueryBinder interface it
consumes, together with proofs about the query-binding and transactional
execution pipeline.

The underlying SQLite library is an external collaborator; it is modelled
as an oracle (`Engine`) that decides, for each `sqlite3_open` and each
`sqlite3_exec` call, whether the call succeeds and which rows it emits.
All universally quantified theorems hold for every such oracle;
counterexamples fix one concrete oracle consistent with SQLite's
documented behaviour.
-/

namespace SQLitePlus

/-- A row as delivered by the underlying engine to the row callback:
one entry per column, `none` standing for a null `char*` in `argv`
(an SQL NULL value). -/
abbrev EngineRow := List (Option String)

/-- The in-memory result table, `std::vector<SQLITE_ROW_VECTOR>`:
an ordered sequence of rows of textual cells. -/
abbrev ResultTable := List (List String)

/-- Outcome of one `sqlite3_exec` call as decided by the underlying
engine: success after emitting `rows` through the callback, or a
statement-level failure after emitting the `rows` reported before the
failure point, carrying the engine diagnostic `msg`. -/
inductive ExecOutcome where
  | ok (rows : List EngineRow)
  | fail (rows : List EngineRow) (msg : String)
deriving DecidableEq

/-- Model of the external SQLite library. `openFn name` returns the pair
(was `sqlite3_open` successful?, handle written into `*ppDb`); per the
SQLite documentation a non-null handle is usually written even when the
open fails. `execFn db sql` decides the outcome of `sqlite3_exec` on
handle `db` (`none` = null pointer) for statement `sql`; the engine may
fail any statement (I/O error, lock, misuse of a null or closed handle). -/
structure Engine where
  openFn : String → Bool × Option Nat
  execFn : Option Nat → String → ExecOutcome

/-- State of one `SQLITE3` instance, mirroring its members `db` (the
`sqlite3*`, `none` = null), `err_msg`, `error_no` and `result`, plus a
ghost counter `txCount` of transactions currently open on the connection,
maintained by the `sqlite3_exec` model whenever a `BEGIN;` or `COMMIT;`
statement succeeds. -/
structure Sys where
  db : Option Nat
  errMsg : Option String
  error_no : Int
  result : ResultTable
  txCount : Int
deriving DecidableEq

/-- Effect of a successfully executed statement on the number of open
transactions: `BEGIN;` opens one, `COMMIT;` closes one, other SQL text
leaves the count unchanged. -/
def txDelta (sql : String) : Int :=
  if sql = "BEGIN;" then 1 else if sql = "COMMIT;" then -1 else 0

/-- `SQLITE3::exec_callback(ptr, argc, argv, col_name)`: builds one
textual row from `argv` in column order (a null column pointer becomes the
literal text `"NULL"`), pushes it onto the result vector, and returns 0.
Result: the updated table and the callback's return code. -/
def exec_callback (res : ResultTable) (argv : EngineRow) : ResultTable × Int :=
  (res ++ [argv.map (fun v => v.getD "NULL")], 0)

/-- The engine's row loop inside `sqlite3_exec`: the callback is invoked
once per emitted row; a nonzero callback return aborts the iteration
(second component `true`). -/
def collectRows : ResultTable → List EngineRow → ResultTable × Bool
  | res, [] => (res, false)
  | res, r :: rs =>
    if (exec_callback res r).2 ≠ 0 then ((exec_callback res r).1, true)
    else collectRows (exec_callback res r).1 rs

/-- `sqlite3_exec(db, sql, &exec_callback, &result, &err_msg)`: the engine
decides the outcome, emitted rows are fed to `exec_callback`, the
diagnostic is written into `err_msg` (null on success), the ghost
transaction counter is updated when a `BEGIN;`/`COMMIT;` succeeds, and the
return code is 0 on success and nonzero (modelled 1) on any failure,
including a callback abort. -/
def sqlite3_exec_cb (E : Engine) (s : Sys) (sql : String) : Sys × Int :=
  match E.execFn s.db sql with
  | .ok rows =>
    let c := collectRows s.result rows
    if c.2 then ({ s with result := c.1, errMsg := some "query aborted" }, 1)
    else ({ s with result := c.1, errMsg := none, txCount := s.txCount + txDelta sql }, 0)
  | .fail rows msg =>
    let c := collectRows s.result rows
    ({ s with result := c.1, errMsg := some msg }, 1)

/-- `sqlite3_exec(db, sql, nullptr, nullptr, &err_msg)`: as above but with
no row callback, so emitted rows are discarded. Used by
`start_transaction` and `commit`. -/
def sqlite3_exec_nocb (E : Engine) (s : Sys) (sql : String) : Sys × Int :=
  match E.execFn s.db sql with
  | .ok _ => ({ s with errMsg := none, txCount := s.txCount + txDelta sql }, 0)
  | .fail _ msg => ({ s with errMsg := some msg }, 1)

/-- `SQLITE3::start_transaction`: runs `BEGIN;`; on engine failure sets
`error_no = 127` and returns 1, else returns 0. -/
def start_transaction (E : Engine) (s : Sys) : Sys × Int :=
  let p := sqlite3_exec_nocb E s "BEGIN;"
  if p.2 ≠ 0 then ({ p.1 with error_no := 127 }, 1) else (p.1, 0)

/-- `SQLITE3::commit`: runs `COMMIT;` (note: with no null-handle check);
on engine failure sets `error_no = 127` and returns 1; on success calls
`start_transaction` discarding its return value, and returns 0. -/
def commit (E : Engine) (s : Sys) : Sys × Int :=
  let p := sqlite3_exec_nocb E s "COMMIT;"
  if p.2 ≠ 0 then ({ p.1 with error_no := 127 }, 1)
  else ((start_transaction E p.1).1, 0)

/-- `SQLITE3::open(db_name)`: if `db` is already non-null, sets
`error_no = 2` and returns 1. Otherwise calls `sqlite3_open`, which writes
a handle into the member `db`; if the open failed, sets `error_no = 1`,
closes the handle (the member keeps its value — the source never resets
`db` to null) and returns 1; if it succeeded, calls `start_transaction`
discarding its return value, and returns 0. -/
def openDB (E : Engine) (name : String) (s : Sys) : Sys × Int :=
  match s.db with
  | some _ => ({ s with error_no := 2 }, 1)
  | none =>
    let o := E.openFn name
    let s1 := { s with db := o.2 }
    if o.1 then ((start_transaction E s1).1, 0)
    else ({ s1 with error_no := 1 }, 1)

/-- `SQLITE3::SQLITE3(db_name)`: members start as `db = err_msg = null`;
`error_no` is an uninitialized `char`, modelled by the parameter `e0`.
With a nonempty name the constructor opens the database — on failure it
throws (`none` here: no instance exists) — and then starts a transaction,
discarding its return value. The result vector starts empty. -/
def construct (E : Engine) (db_name : String) (e0 : Int) : Option Sys :=
  let s0 : Sys := { db := none, errMsg := none, error_no := e0, result := [], txCount := 0 }
  if db_name = "" then some s0
  else
    let o := E.openFn db_name
    if o.1 then some (start_transaction E { s0 with db := o.2 }).1
    else none

/-- Modelled from the spec: `SQLITE3_QUERY.hpp` is included by the source
header but is not among the repository sources. Per spec 4.1 a query
template is an ordered sequence of literal SQL fragments interspersed with
placeholder tokens. -/
inductive Fragment where
  | lit (s : String)
  | hole (key : String)
deriving DecidableEq

/-- Modelled from the spec: a QueryBinder (`SQLITE3_QUERY`) owns a
QueryTemplate and a BindingMap from placeholder key to textual value. -/
structure SQLITE3_QUERY where
  template : List Fragment
  bindings : List (String × String)
deriving DecidableEq

/-- Walk of the template fragments for `bind`: literals are appended
verbatim, placeholders are looked up in the binding map and appended with
no escaping; a key absent from the map fails with that key. -/
def bindGo (bs : List (String × String)) (acc : String) :
    List Fragment → Except String String
  | [] => .ok acc
  | .lit t :: fs => bindGo bs (acc ++ t) fs
  | .hole k :: fs =>
    match bs.find? (fun p => p.1 == k) with
    | some p => bindGo bs (acc ++ p.2) fs
    | none => .error k

/-- Modelled from the spec: `SQLITE3_QUERY::bind()` resolves the template
against the bindings into a final SQL string; a missing key raises
`std::out_of_range` (here `Except.error` carrying the unresolved key). -/
def bindQuery (q : SQLITE3_QUERY) : Except String String :=
  bindGo q.bindings "" q.template

/-- `SQLITE3::execute(SQLITE3_QUERY&)`: fails with `error_no = 4` if `db`
is null; resolves the binder, failing with `error_no = 3` on a missing
binding (before the result vector is touched and before any SQL is
submitted); otherwise clears the result vector, runs the resolved SQL with
the row callback, and on engine failure sets `error_no = 127`. -/
def execute_query (E : Engine) (q : SQLITE3_QUERY) (s : Sys) : Sys × Int :=
  match s.db with
  | none => ({ s with error_no := 4 }, 1)
  | some _ =>
    match bindQuery q with
    | .error _ => ({ s with error_no := 3 }, 1)
    | .ok pq =>
      let p := sqlite3_exec_cb E { s with result := [] } pq
      if p.2 ≠ 0 then ({ p.1 with error_no := 127 }, 1) else (p.1, 0)

/-- `SQLITE3::execute(std::string&)`: fails with `error_no = 4` if `db` is
null; otherwise clears the result vector, runs the query with the row
callback, and on engine failure sets `error_no = 127`. -/
def execute_str (E : Engine) (q : String) (s : Sys) : Sys × Int :=
  match s.db with
  | none => ({ s with error_no := 4 }, 1)
  | some _ =>
    let p := sqlite3_exec_cb E { s with result := [] } q
    if p.2 ≠ 0 then ({ p.1 with error_no := 127 }, 1) else (p.1, 0)

/-- `SQLITE3::execute(const char*)`: identical to the `std::string`
overload up to the C string conversion. -/
def execute_cstr (E : Engine) (q : String) (s : Sys) : Sys × Int :=
  match s.db with
  | none => ({ s with error_no := 4 }, 1)
  | some _ =>
    let p := sqlite3_exec_cb E { s with result := [] } q
    if p.2 ≠ 0 then ({ p.1 with error_no := 127 }, 1) else (p.1, 0)

/-- `SQLITE3::get_result_row_count`: size of the result vector. -/
def get_result_row_count (s : Sys) : Int :=
  s.result.length

/-- `SQLITE3::get_result`: the result table itself (read-only view). -/
def get_result (s : Sys) : ResultTable :=
  s.result

/-- `SQLITE3::perror`: rendering of the current `error_no` (4 is the
NotConnected code "No database connected"; 127 prints the engine's
`err_msg` verbatim). -/
def perror_msg (error_no : Int) (errMsg : Option String) : Option String :=
  if error_no = 0 then none
  else if error_no = 1 then some "SQLITE DATABASE OPEN FAILURE"
  else if error_no = 2 then
    some "SQLITE DATABASE ALREADY OPENED, CREATE NEW OBJECT FOR NEW DATABASE"
  else if error_no = 3 then some "Query Binding Failed"
  else if error_no = 4 then some "No database connected"
  else if error_no = 127 then errMsg
  else none

/-- A fresh, unopened instance (constructed with the default empty name;
the uninitialized `error_no` taken as 0 here). -/
def fresh : Sys :=
  { db := none, errMsg := none, error_no := 0, result := [], txCount := 0 }

/-- An open instance with one active transaction, as left by a fully
successful `open`. -/
def openState : Sys :=
  { fresh with db := some 0, txCount := 1 }

/-- An engine on which every `sqlite3_open` fails (still writing a
non-null handle, as SQLite documents) and every `sqlite3_exec` fails. -/
def engFailAll : Engine :=
  { openFn := fun _ => (false, some 5)
    execFn := fun _ _ => .fail [] "out of memory" }

/-- An engine on which every open and every statement succeeds with no
rows. -/
def engAllOk : Engine :=
  { openFn := fun _ => (true, some 1)
    execFn := fun _ _ => .ok [] }

/-- An engine on which opening succeeds and every statement succeeds
except `BEGIN;`, which fails (e.g. an I/O error when starting the new
transaction). -/
def engBeginFails : Engine :=
  { openFn := fun _ => (true, some 0)
    execFn := fun _ sql => if sql = "BEGIN;" then .fail [] "disk I/O error"
                           else .ok [] }

/-- Rendering of one engine row as the callback renders it: each column in
order, a null value as the literal text `"NULL"`. -/
def rowToText (r : EngineRow) : List String :=
  r.map (fun v => v.getD "NULL")

/-- The rows an exec outcome emitted through the callback (all rows on
success, the rows before the failure point on failure). -/
def emittedRows : ExecOutcome → List EngineRow
  | .ok rows => rows
  | .fail rows _ => rows

/-- Spec scenario B: a template with placeholder `id` and an empty binding
map, whose resolution fails with the key `id`. -/
def qMissing : SQLITE3_QUERY :=
  { template := [.lit "SELECT * FROM t WHERE id = ", .hole "id"], bindings := [] }

/-- An open instance whose result table still holds a row from an earlier
execute. -/
def openStateRows : Sys :=
  { openState with result := [["kept"]] }

/-- An engine on which every statement fails after emitting one row with a
genuine NULL in the second column. -/
def engPartialFail : Engine :=
  { openFn := fun _ => (true, some 0)
    execFn := fun _ _ => .fail [[some "1", none]] "interrupted" }

/-- An engine answering one query with row `b` and every other with row
`a`. -/
def engTwoQueries : Engine :=
  { openFn := fun _ => (true, some 0)
    execFn := fun _ sql => if sql = "SELECT b FROM t;" then .ok [[some "b"]]
                           else .ok [[some "a"]] }

/-- A fresh unopened instance whose result table still holds a row. -/
def freshRows : Sys :=
  { fresh with result := [["old"]] }

/-- Spec scenario A: template with an `id` placeholder, binding map
`id ↦ 5`, resolving to `SELECT * FROM t WHERE id = 5`. -/
def qBound : SQLITE3_QUERY :=
  { template := [.lit "SELECT * FROM t WHERE id = ", .hole "id"]
    bindings := [("id", "5")] }

theorem collectRows_eq (res : ResultTable) (rows : List EngineRow) :
    collectRows res rows = (res ++ rows.map rowToText, false) := by
  induction rows generalizing res with
  | nil => simp [collectRows]
  | cons r rs ih =>
    simp [collectRows, exec_callback, ih, rowToText]

theorem execute_str_db (E : Engine) (q : String) (s : Sys) :
    (execute_str E q s).1.db = s.db := by
  rcases hd : s.db with _ | h
  · simp [execute_str, hd]
  · rcases hE : E.execFn (some h) q with ⟨rows⟩ | ⟨rows, msg⟩ <;>
      simp [execute_str, hd, sqlite3_exec_cb, hE, collectRows_eq]

theorem execute_str_result (E : Engine) (q : String) (s : Sys)
    (hdb : s.db ≠ none) :
    (execute_str E q s).1.result = (emittedRows (E.execFn s.db q)).map rowToText := by
  rcases hd : s.db with _ | h
  · exact absurd hd hdb
  · rcases hE : E.execFn (some h) q with ⟨rows⟩ | ⟨rows, msg⟩ <;>
      simp [execute_str, hd, sqlite3_exec_cb, hE, collectRows_eq, emittedRows]

/-- C7: the row callback builds one textual cell per reported column in
column order, maps a NULL value to the literal text "NULL", appends the
row to the table, and returns 0; consequently the engine's row loop never
aborts and collects every emitted row in order. -/
theorem C7_callback_collects_all (res : ResultTable) (rows : List EngineRow)
    (argv : EngineRow) :
    (exec_callback res argv).2 = 0 ∧
    (exec_callback res argv).1 = res ++ [argv.map (fun v => v.getD "NULL")] ∧
    collectRows res rows = (res ++ rows.map rowToText, false) :=
  ⟨rfl, rfl, collectRows_eq res rows⟩

/-- C1 (counterexample): on a fresh unopened instance, `commit` does not
set the NotConnected code 4: with the engine reporting failure for the
COMMIT on the null handle, `commit` returns 1 with `error_no = 127`
(ExecutionFailed), while `execute` in the same state does set 4. -/
theorem C1_counterexample :
    fresh.db = none ∧
    (commit engFailAll fresh).2 = 1 ∧
    (commit engFailAll fresh).1.error_no = 127 ∧
    (commit engFailAll fresh).1.error_no ≠ 4 ∧
    (execute_str engFailAll "SELECT 1;" fresh).1.error_no = 4 := by
  decide

/-- C1 (amended): `commit` performs no connection check. On an unopened
instance it submits COMMIT on the null handle; whenever the engine reports
failure there, `commit` returns 1 and sets `error_no = 127`
(ExecutionFailed) — never 4 (NotConnected), the code `execute` sets in the
same state. -/
theorem C1_commit_unopened (E : Engine) (s : Sys) (rows : List EngineRow)
    (msg : String) (hdb : s.db = none)
    (hex : E.execFn none "COMMIT;" = .fail rows msg) :
    (commit E s).2 = 1 ∧ (commit E s).1.error_no = 127 ∧
    (execute_str E "SELECT 1;" s).1.error_no = 4 := by
  refine ⟨?_, ?_, ?_⟩ <;>
    simp [commit, sqlite3_exec_nocb, hdb, hex, execute_str]

theorem C1_commit_unopened_witness :
    (commit engFailAll fresh).2 = 1 ∧
    (commit engFailAll fresh).1.error_no = 127 ∧
    (execute_str engFailAll "SELECT 1;" fresh).1.error_no = 4 :=
  C1_commit_unopened engFailAll fresh [] "out of memory" rfl rfl

/-- C2: at an engine where the COMMIT statement succeeds but the
subsequent BEGIN fails, `commit` on an open instance with one active
transaction returns 0 (success) yet leaves zero transactions active,
because the return value of `start_transaction` is discarded (`error_no`
is set to 127 on this nominally successful call). -/
theorem C2_commit_success_zero_tx :
    (commit engBeginFails openState).2 = 0 ∧
    (commit engBeginFails openState).1.txCount = 0 ∧
    (commit engBeginFails openState).1.error_no = 127 := by
  decide

/-- C3 (counterexample): two failing-open runs contradict the claim. With
an engine where the file-open succeeds but the subsequent BEGIN fails,
`open` returns 0 — it does not report failure — and no transaction is
active. With an engine where the file-open itself fails (writing a
non-null handle, as SQLite documents), `open` returns 1 but leaves the
stale handle in `db`, so retrying `open` on the same instance — even
against an engine that would now succeed — fails with AlreadyOpen (2)
instead of succeeding. -/
theorem C3_counterexample :
    ((openDB engBeginFails "test.db" fresh).2 = 0 ∧
     (openDB engBeginFails "test.db" fresh).1.txCount = 0) ∧
    ((openDB engFailAll "test.db" fresh).2 = 1 ∧
     (openDB engFailAll "test.db" fresh).1.db = some 5 ∧
     (openDB engAllOk "test.db" (openDB engFailAll "test.db" fresh).1).2 = 1 ∧
     (openDB engAllOk "test.db" (openDB engFailAll "test.db" fresh).1).1.error_no = 2) := by
  decide

/-- C3 (amended): on an unopened instance, `open` behaves as follows. If
the file-open fails, it sets OpenFailed (1), closes the handle and returns
1, but `db` keeps the handle value `sqlite3_open` wrote, so when that
value is non-null a retry is rejected as AlreadyOpen rather than allowed.
If the file-open succeeds but the subsequent BEGIN fails, `open` returns 0
(reporting success) with no new transaction and `error_no = 127`. Only
when both steps succeed does `open` leave one more active transaction,
with `error_no` untouched. -/
theorem C3_open_behavior (E : Engine) (name : String) (s : Sys)
    (hdb : s.db = none) :
    ((E.openFn name).1 = false →
      openDB E name s = ({ s with db := (E.openFn name).2, error_no := 1 }, 1)) ∧
    (∀ rows msg, (E.openFn name).1 = true →
      E.execFn (E.openFn name).2 "BEGIN;" = .fail rows msg →
      (openDB E name s).2 = 0 ∧ (openDB E name s).1.txCount = s.txCount ∧
      (openDB E name s).1.error_no = 127) ∧
    (∀ rows, (E.openFn name).1 = true →
      E.execFn (E.openFn name).2 "BEGIN;" = .ok rows →
      (openDB E name s).2 = 0 ∧ (openDB E name s).1.txCount = s.txCount + 1 ∧
      (openDB E name s).1.error_no = s.error_no) := by
  refine ⟨?_, ?_, ?_⟩
  · intro hopen
    simp [openDB, hdb, hopen]
  · intro rows msg hopen hex
    simp [openDB, hdb, hopen, start_transaction, sqlite3_exec_nocb, hex]
  · intro rows hopen hex
    simp [openDB, hdb, hopen, start_transaction, sqlite3_exec_nocb, hex, txDelta]

theorem C3_open_behavior_witness :
    (openDB engBeginFails "test.db" fresh).2 = 0 ∧
    (openDB engBeginFails "test.db" fresh).1.txCount = fresh.txCount ∧
    (openDB engBeginFails "test.db" fresh).1.error_no = 127 :=
  (C3_open_behavior engBeginFails "test.db" fresh rfl).2.1 [] "disk I/O error" rfl rfl

/-- C4: on an open engine, when the binder's resolution fails with a
missing binding, `execute(SQLITE3_QUERY&)` returns 1 with `error_no = 3`
(BindingFailed) and the state is otherwise exactly the input state: the
result table keeps the rows of the previous execute and no SQL reaches the
underlying engine. -/
theorem C4_binding_failed_frame (E : Engine) (q : SQLITE3_QUERY) (s : Sys)
    (hdb : s.db ≠ none) (k : String) (hbind : bindQuery q = .error k) :
    execute_query E q s = ({ s with error_no := 3 }, 1) := by
  rcases hd : s.db with _ | h
  · exact absurd hd hdb
  · simp [execute_query, hd, hbind]

theorem C4_binding_failed_frame_witness :
    execute_query engAllOk qMissing openStateRows =
      ({ openStateRows with error_no := 3 }, 1) :=
  C4_binding_failed_frame engAllOk qMissing openStateRows (by decide) "id" rfl

/-- C5: on an open engine, when the underlying engine reports a
statement-level failure, `execute` returns 1 with `error_no = 127`
(ExecutionFailed), `err_msg` carries the engine's diagnostic, and the
result table holds exactly the rows the callback collected before the
failure point (the empty list when no row was emitted, as for a parse
failure); the partial rows are not discarded. -/
theorem C5_execution_failed_partial (E : Engine) (q : String) (s : Sys)
    (h : Nat) (rows : List EngineRow) (msg : String) (hdb : s.db = some h)
    (hex : E.execFn (some h) q = .fail rows msg) :
    (execute_str E q s).2 = 1 ∧
    (execute_str E q s).1.error_no = 127 ∧
    (execute_str E q s).1.errMsg = some msg ∧
    (execute_str E q s).1.result = rows.map rowToText := by
  refine ⟨?_, ?_, ?_, ?_⟩ <;>
    simp [execute_str, hdb, sqlite3_exec_cb, hex, collectRows_eq]

theorem C5_execution_failed_partial_witness :
    (execute_str engPartialFail "SELECT * FROM t;" openState).2 = 1 ∧
    (execute_str engPartialFail "SELECT * FROM t;" openState).1.error_no = 127 ∧
    (execute_str engPartialFail "SELECT * FROM t;" openState).1.errMsg = some "interrupted" ∧
    (execute_str engPartialFail "SELECT * FROM t;" openState).1.result = [["1", "NULL"]] := by
  have h := C5_execution_failed_partial engPartialFail "SELECT * FROM t;" openState 0
    [[some "1", none]] "interrupted" rfl rfl
  exact ⟨h.1, h.2.1, h.2.2.1, h.2.2.2⟩

/-- C6: for two successive `execute` calls on an open engine, the result
table after the second call is exactly the rendering of the rows the
engine emitted for the second statement — the table is cleared at the
start of the call, so rows of the first statement never persist or mix in. -/
theorem C6_two_executes_no_mix (E : Engine) (q1 q2 : String) (s : Sys)
    (hdb : s.db ≠ none) :
    (execute_str E q2 (execute_str E q1 s).1).1.result =
      (emittedRows (E.execFn s.db q2)).map rowToText := by
  have h1 : (execute_str E q1 s).1.db = s.db := execute_str_db E q1 s
  have h2 := execute_str_result E q2 (execute_str E q1 s).1 (by rw [h1]; exact hdb)
  rw [h2, h1]

theorem C6_two_executes_no_mix_witness :
    (execute_str engTwoQueries "SELECT b FROM t;"
      (execute_str engTwoQueries "SELECT a FROM t;" openState).1).1.result = [["b"]] := by
  have h := C6_two_executes_no_mix engTwoQueries "SELECT a FROM t;" "SELECT b FROM t;"
    openState (by decide)
  exact h.trans (by decide)

/-- C8 (counterexample): an instance on which `open` has never succeeded
need not have a null handle. After a failed `open` (the engine wrote a
non-null handle, as SQLite documents), `execute` passes the connection
check: it does not set NotConnected (4) — here the stale-handle exec fails
and sets 127 — and it clears the prior result table instead of leaving it
untouched. -/
theorem C8_counterexample :
    (openDB engFailAll "test.db" freshRows).2 = 1 ∧
    (openDB engFailAll "test.db" freshRows).1.result = [["old"]] ∧
    (execute_str engFailAll "SELECT 1;" (openDB engFailAll "test.db" freshRows).1).1.error_no
      = 127 ∧
    (execute_str engFailAll "SELECT 1;" (openDB engFailAll "test.db" freshRows).1).1.error_no
      ≠ 4 ∧
    (execute_str engFailAll "SELECT 1;" (openDB engFailAll "test.db" freshRows).1).1.result
      = [] := by
  decide

/-- C8 (amended): on every instance whose stored handle is null — a fresh
instance on which `open` was never called (or was called while already
bound) — each of the three `execute` overloads returns 1 with
`error_no = 4` (NotConnected) and the state is otherwise exactly the input
state: the result table is neither cleared nor modified. After a *failed*
`open` the stored handle is in general non-null and stale, and `execute`
proceeds past the connection check instead. -/
theorem C8_execute_null_handle (E : Engine) (s : Sys) (q qc : String)
    (b : SQLITE3_QUERY) (hdb : s.db = none) :
    execute_str E q s = ({ s with error_no := 4 }, 1) ∧
    execute_cstr E qc s = ({ s with error_no := 4 }, 1) ∧
    execute_query E b s = ({ s with error_no := 4 }, 1) := by
  refine ⟨?_, ?_, ?_⟩ <;> simp [execute_str, execute_cstr, execute_query, hdb]

theorem C8_execute_null_handle_witness :
    execute_str engAllOk "SELECT 1;" freshRows = ({ freshRows with error_no := 4 }, 1) ∧
    execute_cstr engAllOk "SELECT 1;" freshRows = ({ freshRows with error_no := 4 }, 1) ∧
    execute_query engAllOk qMissing freshRows = ({ freshRows with error_no := 4 }, 1) :=
  C8_execute_null_handle engAllOk freshRows "SELECT 1;" "SELECT 1;" qMissing rfl

/-- C9: the three `execute` overloads agree in every engine state: the
`const char*` overload is extensionally the `std::string` overload, and
the QueryBinder overload, whenever the binder resolves to the SQL text
`q`, returns the same status and leaves the same state (same error code,
same result table) as the string overload run on `q`. -/
theorem C9_overloads_equivalent (E : Engine) (s : Sys) (q : String)
    (b : SQLITE3_QUERY) (hbind : bindQuery b = .ok q) :
    execute_cstr E q s = execute_str E q s ∧
    execute_query E b s = execute_str E q s := by
  constructor
  · rfl
  · rcases hd : s.db with _ | h
    · simp [execute_query, execute_str, hd]
    · simp [execute_query, execute_str, hd, hbind]

theorem C9_overloads_equivalent_witness :
    execute_cstr engTwoQueries "SELECT * FROM t WHERE id = 5" openState =
      execute_str engTwoQueries "SELECT * FROM t WHERE id = 5" openState ∧
    execute_query engTwoQueries qBound openState =
      execute_str engTwoQueries "SELECT * FROM t WHERE id = 5" openState :=
  C9_overloads_equivalent engTwoQueries openState "SELECT * FROM t WHERE id = 5" qBound rfl

theorem execute_cstr_eq (E : Engine) (q : String) (s : Sys) :
    execute_cstr E q s = execute_str E q s :=
  rfl

theorem execute_str_error (E : Engine) (q : String) (s : Sys) :
    ((execute_str E q s).2 = 0 ∧ (execute_str E q s).1.error_no = s.error_no) ∨
    ((execute_str E q s).2 = 1 ∧
      ((execute_str E q s).1.error_no = 4 ∨ (execute_str E q s).1.error_no = 127)) := by
  rcases hd : s.db with _ | h
  · right; simp [execute_str, hd]
  · rcases hE : E.execFn (some h) q with ⟨rows⟩ | ⟨rows, msg⟩
    · left; simp [execute_str, hd, sqlite3_exec_cb, hE, collectRows_eq]
    · right; simp [execute_str, hd, sqlite3_exec_cb, hE, collectRows_eq]

theorem execute_query_error (E : Engine) (b : SQLITE3_QUERY) (s : Sys) :
    ((execute_query E b s).2 = 0 ∧ (execute_query E b s).1.error_no = s.error_no) ∨
    ((execute_query E b s).2 = 1 ∧
      ((execute_query E b s).1.error_no = 3 ∨ (execute_query E b s).1.error_no = 4 ∨
       (execute_query E b s).1.error_no = 127)) := by
  rcases hd : s.db with _ | h
  · right; simp [execute_query, hd]
  · rcases hb : bindQuery b with ⟨k⟩ | ⟨pq⟩
    · right; simp [execute_query, hd, hb]
    · rcases hE : E.execFn (some h) pq with ⟨rows⟩ | ⟨rows, msg⟩
      · left; simp [execute_query, hd, hb, sqlite3_exec_cb, hE, collectRows_eq]
      · right; simp [execute_query, hd, hb, sqlite3_exec_cb, hE, collectRows_eq]

theorem commit_error (E : Engine) (s : Sys) :
    ((commit E s).2 = 0 ∧
      ((commit E s).1.error_no = s.error_no ∨ (commit E s).1.error_no = 127)) ∨
    ((commit E s).2 = 1 ∧ (commit E s).1.error_no = 127) := by
  rcases hC : E.execFn s.db "COMMIT;" with ⟨r1⟩ | ⟨r1, m1⟩
  · rcases hB : E.execFn s.db "BEGIN;" with ⟨r2⟩ | ⟨r2, m2⟩
    · left; simp [commit, sqlite3_exec_nocb, hC, hB, start_transaction]
    · left; simp [commit, sqlite3_exec_nocb, hC, hB, start_transaction]
  · right; simp [commit, sqlite3_exec_nocb, hC]

theorem openDB_error (E : Engine) (name : String) (s : Sys) :
    ((openDB E name s).2 = 0 ∧
      ((openDB E name s).1.error_no = s.error_no ∨ (openDB E name s).1.error_no = 127)) ∨
    ((openDB E name s).2 = 1 ∧
      ((openDB E name s).1.error_no = 1 ∨ (openDB E name s).1.error_no = 2)) := by
  rcases hd : s.db with _ | h
  · rcases ho : E.openFn name with ⟨ok, hnd⟩
    cases ok
    · right; simp [openDB, hd, ho]
    · rcases hB : E.execFn hnd "BEGIN;" with ⟨r⟩ | ⟨r, m⟩
      · left; simp [openDB, hd, ho, start_transaction, sqlite3_exec_nocb, hB]
      · left; simp [openDB, hd, ho, start_transaction, sqlite3_exec_nocb, hB]
  · right; simp [openDB, hd]

/-- C10 (counterexample): after an earlier failure recorded `error_no = 3`
(BindingFailed), an `open` call that returns success (0) can still
overwrite the error code: its internal BEGIN failed and set 127, so the
reported code is no longer that of the earlier failure. -/
theorem C10_counterexample :
    (openDB engBeginFails "test.db" { fresh with error_no := 3 }).2 = 0 ∧
    (openDB engBeginFails "test.db" { fresh with error_no := 3 }).1.error_no = 127 ∧
    (openDB engBeginFails "test.db" { fresh with error_no := 3 }).1.error_no ≠ 3 := by
  decide

/-- C10 (amended): no operation ever writes the no-error value: starting
from a state with a nonzero error code, the code after any `execute`,
`commit` or `open` is still nonzero. An `execute` that returns success
leaves the code exactly as it was; but `commit` and `open` that return
success may still overwrite it with 127, because they discard the result
of their internal `start_transaction` — only when that internal BEGIN also
succeeded does the earlier failure's code persist through them. -/
theorem C10_error_code_persistence (E : Engine) (s : Sys) (q qc : String)
    (b : SQLITE3_QUERY) (name : String) (h0 : s.error_no ≠ 0) :
    ((execute_str E q s).1.error_no ≠ 0 ∧
     (execute_cstr E qc s).1.error_no ≠ 0 ∧
     (execute_query E b s).1.error_no ≠ 0 ∧
     (commit E s).1.error_no ≠ 0 ∧
     (openDB E name s).1.error_no ≠ 0) ∧
    ((execute_str E q s).2 = 0 → (execute_str E q s).1.error_no = s.error_no) ∧
    ((execute_cstr E qc s).2 = 0 → (execute_cstr E qc s).1.error_no = s.error_no) ∧
    ((execute_query E b s).2 = 0 → (execute_query E b s).1.error_no = s.error_no) ∧
    ((commit E s).2 = 0 →
      (commit E s).1.error_no = s.error_no ∨ (commit E s).1.error_no = 127) ∧
    ((openDB E name s).2 = 0 →
      (openDB E name s).1.error_no = s.error_no ∨ (openDB E name s).1.error_no = 127) := by
  refine ⟨⟨?_, ?_, ?_, ?_, ?_⟩, ?_, ?_, ?_, ?_, ?_⟩
  · rcases execute_str_error E q s with ⟨_, h⟩ | ⟨_, h | h⟩ <;> rw [h]
    · exact h0
    · decide
    · decide
  · rw [execute_cstr_eq]
    rcases execute_str_error E qc s with ⟨_, h⟩ | ⟨_, h | h⟩ <;> rw [h]
    · exact h0
    · decide
    · decide
  · rcases execute_query_error E b s with ⟨_, h⟩ | ⟨_, h | h | h⟩ <;> rw [h]
    · exact h0
    · decide
    · decide
    · decide
  · rcases commit_error E s with ⟨_, h | h⟩ | ⟨_, h⟩ <;> rw [h]
    · exact h0
    · decide
    · decide
  · rcases openDB_error E name s with ⟨_, h | h⟩ | ⟨_, h | h⟩ <;> rw [h]
    · exact h0
    · decide
    · decide
    · decide
  · intro hrc
    rcases execute_str_error E q s with ⟨_, h⟩ | ⟨hr, _⟩
    · exact h
    · rw [hrc] at hr
      exact absurd hr (by decide)
  · intro hrc
    rw [execute_cstr_eq] at hrc ⊢
    rcases execute_str_error E qc s with ⟨_, h⟩ | ⟨hr, _⟩
    · exact h
    · rw [hrc] at hr
      exact absurd hr (by decide)
  · intro hrc
    rcases execute_query_error E b s with ⟨_, h⟩ | ⟨hr, _⟩
    · exact h
    · rw [hrc] at hr
      exact absurd hr (by decide)
  · intro hrc
    rcases commit_error E s with ⟨_, h⟩ | ⟨hr, _⟩
    · exact h
    · rw [hrc] at hr
      exact absurd hr (by decide)
  · intro hrc
    rcases openDB_error E name s with ⟨_, h⟩ | ⟨hr, _⟩
    · exact h
    · rw [hrc] at hr
      exact absurd hr (by decide)

theorem C10_error_code_persistence_witness :
    (execute_str engAllOk "SELECT 1;" { openState with error_no := 3 }).1.error_no =
      ({ openState with error_no := 3 } : Sys).error_no := by
  have h := C10_error_code_persistence engAllOk { openState with error_no := 3 }
    "SELECT 1;" "SELECT 1;" qBound "test.db" (by decide)
  exact h.2.1 (by decide)

end SQLitePlus
